import Mathlib

/-!
# Verification of the pairing-service approval orchestration

Shallow embedding of `src/server.js` (placeparks/pairing-service):

* `handleMessage` / `step` embed the `ws.on('message')` handler and the
  surrounding timer/error/close handlers of `approvePairingViaGateway`
  (lines 82-190).  The JS code has no explicit phase variable; the state
  records exactly what the closure state records (`messageId`, whether the
  promise has settled, whether `ws.close()` has taken effect, whether the
  watchdog timer is still armed) plus which requests have been written to
  the socket.  A session is modelled from the `open` event onward, at which
  point the watchdog timer is armed (line 95).
* `approvePairingViaHttp` embeds the HTTP fallback (lines 193-241), with the
  possible network behaviours made explicit as a `FbBehavior` value.
* `getServiceName` embeds the Railway directory lookup (lines 35-79).
* `pairingApprove` embeds the `POST /pairing/approve` handler
  (lines 252-334); the results of the three kinds of outbound calls are
  supplied by an `OrchEnv` oracle, and the handler additionally returns the
  ordered trace of outbound calls and backoff sleeps it performed.
-/

namespace PairingService

/-- A parsed gateway frame, as the fields the JS handler reads from
`JSON.parse(data)`: `msg.type`, `msg.id` (absent when the key is missing),
the truthiness of `msg.ok` and of `msg.payload?.protocol`, the payload
(`none` when falsy), and `msg.error?.message` (`none` when absent). -/
structure GwMsg where
  type : String
  id : Option Int
  ok : Bool
  payloadProtocol : Bool
  payload : Option String
  errorMessage : Option String
deriving DecidableEq

/-- An inbound WebSocket data event: either it parses as JSON or the
`JSON.parse` in the handler throws (server.js line 103/174). -/
inductive Frame
  | parsed (m : GwMsg)
  | unparseable
deriving DecidableEq

/-- How the promise of one `approvePairingViaGateway` call settles:
`resolved` with a payload (session reached Done) or `rejected` with an
error message (session reached Failed). -/
inductive GwOutcome
  | resolved (payload : String)
  | rejected (message : String)
deriving DecidableEq

/-- The closure state of one `approvePairingViaGateway` call, from the
`open` event onward.  `messageId` is the JS `messageId` counter (starts at
1, line 89); ids `1 ≤ i < messageId` are exactly the ids already assigned
to outbound requests.  `settled` is the promise's state (first
resolve/reject wins).  `closed` and `closeCount` track effective
`ws.close()` transitions (closing an already-closing socket is a no-op).
`timeoutActive` records whether the watchdog timer is still armed. -/
structure SessionState where
  messageId : Nat
  settled : Option GwOutcome
  closed : Bool
  closeCount : Nat
  timeoutActive : Bool
  sentConnect : Bool
  sentApprove : Bool
deriving DecidableEq

/-- State right after the `open` event: watchdog armed, `messageId = 1`,
nothing sent, promise pending, socket open. -/
def initialSession : SessionState :=
  { messageId := 1, settled := none, closed := false, closeCount := 0,
    timeoutActive := true, sentConnect := false, sentApprove := false }

/-- JS promise settlement: the first resolve/reject wins, later ones are
no-ops. -/
def settle (s : SessionState) (o : GwOutcome) : SessionState :=
  if s.settled.isSome then s else { s with settled := some o }

/-- `ws.close()`: transitions the socket to closed; a further `close()` on
an already-closing socket does nothing. -/
def closeWs (s : SessionState) : SessionState :=
  if s.closed then s else { s with closed := true, closeCount := s.closeCount + 1 }

/-- The JS test `msg.id >= 2` (server.js line 153); an absent id compares
false. -/
def idGe2 (m : GwMsg) : Bool :=
  match m.id with
  | some n => 2 ≤ n
  | none => false

/-- JS `x || d` on an optional string: an absent or empty message falls
back to the default. -/
def jsOrD : Option String → String → String
  | none, d => d
  | some s, d => if s = "" then d else s

/-- The `ws.on('message')` handler of `approvePairingViaGateway`
(server.js lines 101-177), translated branch by branch:
1. `msg.type === 'challenge'`: send the connect request with the current
   `messageId` and increment it.
2. `msg.type === 'res' && msg.ok && msg.payload?.protocol`: send the
   approve request with the current `messageId` and increment it.
3. `msg.type === 'res' && msg.id >= 2`: clear the watchdog, close, and
   settle (resolve with `msg.payload || { success: true }` when ok,
   reject with `msg.error?.message || 'Pairing rejected by gateway'`
   otherwise).
4. `msg.type === 'res' && !msg.ok`: clear the watchdog, close, and reject
   with `msg.error?.message || 'Gateway error'`.
A frame that fails `JSON.parse` is caught and only logged (line 174). -/
def handleMessage (s : SessionState) (f : Frame) : SessionState :=
  match f with
  | .unparseable => s
  | .parsed m =>
    if m.type = "challenge" then
      { s with sentConnect := true, messageId := s.messageId + 1 }
    else if m.type = "res" ∧ m.ok ∧ m.payloadProtocol then
      { s with sentApprove := true, messageId := s.messageId + 1 }
    else if m.type = "res" ∧ idGe2 m then
      let s1 := { s with timeoutActive := false }
      if m.ok then
        settle (closeWs s1) (.resolved (m.payload.getD "success:true"))
      else
        settle (closeWs s1) (.rejected (jsOrD m.errorMessage "Pairing rejected by gateway"))
    else if m.type = "res" ∧ ¬ m.ok then
      settle (closeWs { s with timeoutActive := false })
        (.rejected (jsOrD m.errorMessage "Gateway error"))
    else s

/-- The asynchronous events one session can observe after `open`: an
inbound data frame, the watchdog firing, a socket `error` event, a socket
`close` event. -/
inductive GwEvent
  | message (f : Frame)
  | timeoutFires
  | wsError (msg : String)
  | closeEvt
deriving DecidableEq

/-- One step of the session: dispatch an event to the corresponding JS
handler.  The watchdog (lines 95-98) fires only while armed and then closes
the socket and rejects with the timeout message; the `error` handler
(lines 179-183) clears the watchdog and rejects; the `close` handler
(lines 185-188) clears the watchdog. -/
def step (s : SessionState) (e : GwEvent) : SessionState :=
  match e with
  | .message f => handleMessage s f
  | .timeoutFires =>
      if s.timeoutActive then
        settle (closeWs { s with timeoutActive := false })
          (.rejected "Gateway timeout - no response in 20 seconds")
      else s
  | .wsError msg => settle { s with timeoutActive := false } (.rejected msg)
  | .closeEvt => { s with timeoutActive := false }

/-- Run a session from the post-`open` initial state over a list of events
in arrival order. -/
def runSession (evts : List GwEvent) : SessionState :=
  evts.foldl step initialSession

/-- The abstract phases of the spec's GatewaySession state machine, derived
from the concrete closure state: terminal once the promise settles,
otherwise determined by which requests have been sent. -/
inductive Phase
  | awaitingChallenge
  | awaitingConnectAck
  | awaitingApproveAck
  | terminalDone
  | terminalFailed
deriving DecidableEq

/-- Derive the spec-level phase from the concrete session state. -/
def phase (s : SessionState) : Phase :=
  match s.settled with
  | some (.resolved _) => .terminalDone
  | some (.rejected _) => .terminalFailed
  | none =>
      if s.sentApprove then .awaitingApproveAck
      else if s.sentConnect then .awaitingConnectAck
      else .awaitingChallenge

/-- The body of one HTTP fallback response, as the fields the JS handler
reads: `res.statusCode`, whether `JSON.parse(body)` succeeds, the
`success` field of the parsed payload (`none` when the key is absent),
`result.message` (absent modelled as `none`), and the parsed body itself
(the value passed to `resolve`). -/
structure FbResponse where
  statusCode : Nat
  parseOk : Bool
  success : Option Bool
  message : Option String
  body : String
deriving DecidableEq

/-- The possible behaviours of one HTTP fallback call: a response arrives,
the 15 s request timeout fires, or a connection-level error occurs. -/
inductive FbBehavior
  | response (r : FbResponse)
  | timedOut
  | connError (msg : String)
deriving DecidableEq

/-- `approvePairingViaHttp` (server.js lines 193-241): on a response,
resolve with the parsed body iff `res.statusCode === 200 && result.success`,
otherwise reject with `result.message || 'HTTP pairing failed'`; a body
that fails to parse rejects with `'Invalid response from pairing server'`;
the request timeout rejects with `'HTTP pairing server timeout'`; a
request error rejects with `'HTTP pairing server error: <msg>'`. -/
def approvePairingViaHttp : FbBehavior → Except String String
  | .response r =>
      if r.parseOk then
        if r.statusCode = 200 ∧ r.success = some true then .ok r.body
        else .error (jsOrD r.message "HTTP pairing failed")
      else .error "Invalid response from pairing server"
  | .timedOut => .error "HTTP pairing server timeout"
  | .connError m => .error ("HTTP pairing server error: " ++ m)

/-- JS truthiness of an optional string field: absent and empty are falsy. -/
def truthy : Option String → Bool
  | none => false
  | some s => s ≠ ""

/-- The possible behaviours of one directory (Railway GraphQL) lookup: a
parsed response with `result.errors` truthiness and
`result.data?.service?.name`, a body that fails `JSON.parse` (rejecting
with the parse error), or a request error. -/
inductive DirBehavior
  | response (hasErrors : Bool) (name : Option String)
  | parseError (msg : String)
  | netError (msg : String)
deriving DecidableEq

/-- `getServiceName` (server.js lines 35-79): reject with
`'Service not found'` when `result.errors` is truthy or
`result.data?.service?.name` is falsy, else resolve with the name; parse
and request errors reject with their own message. -/
def getServiceName : DirBehavior → Except String String
  | .response hasErrors name =>
      if hasErrors ∨ ¬ truthy name then .error "Service not found"
      else .ok (name.getD "")
  | .parseError m => .error m
  | .netError m => .error m

/-- The JSON body of `POST /pairing/approve` as the handler destructures it
(server.js line 253); absent keys are `none`. -/
structure ApproveRequest where
  serviceId : Option String
  channel : Option String
  code : Option String
  gatewayToken : Option String
deriving DecidableEq

/-- One character of the class `[A-Za-z0-9_-]`. -/
def isCodeChar (c : Char) : Bool :=
  c.isAlphanum ∨ c = '_' ∨ c = '-'

/-- The test `/^[A-Za-z0-9_-]{2,32}$/.test(code)` (server.js line 259). -/
def codeMatches (s : String) : Bool :=
  2 ≤ s.data.length ∧ s.data.length ≤ 32 ∧ s.data.all isCodeChar

/-- The JSON body the handler sends back, with `none` for keys a given
response does not set.  `status` is the HTTP status (200 for a plain
`res.json`). -/
structure HttpResponse where
  status : Nat
  success : Option Bool
  message : Option String
  errorMsg : Option String
  result : Option String
  requiresManual : Option Bool
  command : Option String
  instructions : List String
deriving DecidableEq

/-- A 400 validation response `{ error: msg }` (server.js lines 256, 260). -/
def badRequest (msg : String) : HttpResponse :=
  { status := 400, success := none, message := none, errorMsg := some msg,
    result := none, requiresManual := none, command := none, instructions := [] }

/-- A 200 success response `{ success: true, message, result }`
(server.js lines 275-279 and 291-295). -/
def successResponse (msg payload : String) : HttpResponse :=
  { status := 200, success := some true, message := some msg,
    errorMsg := none, result := some payload, requiresManual := none,
    command := none, instructions := [] }

/-- The remediation command
`` `openclaw pairing approve ${channel} ${code}` `` (server.js line 303). -/
def manualCommand (channel code : String) : String :=
  "openclaw pairing approve " ++ channel ++ " " ++ code

/-- The four literal instruction strings of the manual-fallback payload
(server.js lines 309-314). -/
def manualInstructions (command : String) : List String :=
  ["1. Go to Railway Dashboard",
   "2. Open your OpenClaw service → Deployments",
   "3. Click active deployment → Terminal",
   "4. Run: " ++ command]

/-- The 503 manual-fallback response (server.js lines 304-315, 321-332). -/
def manualResponse (channel code errMsg : String) : HttpResponse :=
  { status := 503, success := some false, message := none,
    errorMsg := some errMsg, result := none, requiresManual := some true,
    command := some (manualCommand channel code),
    instructions := manualInstructions (manualCommand channel code) }

/-- An entry of the trace of outbound work one orchestration run performs,
in order: the directory lookup, the n-th WebSocket gateway attempt, the
fixed `sleep(3000)` backoff, the HTTP fallback call. -/
inductive OrchEvent
  | resolveCall
  | gatewayAttempt (n : Nat)
  | backoffSleep (ms : Nat)
  | fallbackCall
deriving DecidableEq

/-- Oracle for the outbound calls of one orchestration run: the directory
lookup's behaviour, the outcome of the n-th gateway attempt (1-based), and
the fallback call's behaviour. -/
structure OrchEnv where
  dir : DirBehavior
  gw : Nat → GwOutcome
  fb : FbBehavior

/-- The `POST /pairing/approve` handler (server.js lines 252-334), given
the behaviours of its outbound calls.  Returns the response together with
the ordered trace of outbound calls and sleeps:
* missing `serviceId`/`channel`/`code` → 400, nothing attempted;
* `code` failing the format test → 400, nothing attempted;
* resolution failure → 503 manual fallback carrying the resolver's error;
* gateway attempts 1 and 2 with a 3000 ms sleep between them, the first
  resolved attempt short-circuiting with the 200 gateway-success response;
* otherwise one HTTP fallback call, resolving to the 200 fallback-success
  response, or the 503 manual fallback carrying
  `lastError?.message || 'Connection failed'` where `lastError` is the
  error of gateway attempt 2 (the fallback call's own error is only
  logged, line 297). -/
def pairingApprove (req : ApproveRequest) (env : OrchEnv) :
    HttpResponse × List OrchEvent :=
  if ¬ (truthy req.serviceId ∧ truthy req.channel ∧ truthy req.code) then
    (badRequest "Missing required fields: serviceId, channel, code", [])
  else if ¬ codeMatches (req.code.getD "") then
    (badRequest "Invalid code format", [])
  else
    let channel := req.channel.getD ""
    let code := req.code.getD ""
    match getServiceName env.dir with
    | .error e => (manualResponse channel code e, [.resolveCall])
    | .ok _ =>
      match env.gw 1 with
      | .resolved p =>
          (successResponse "Pairing approved successfully" p,
           [.resolveCall, .gatewayAttempt 1])
      | .rejected _ =>
        match env.gw 2 with
        | .resolved p =>
            (successResponse "Pairing approved successfully" p,
             [.resolveCall, .gatewayAttempt 1, .backoffSleep 3000,
              .gatewayAttempt 2])
        | .rejected e2 =>
          match approvePairingViaHttp env.fb with
          | .ok p =>
              (successResponse "Pairing approved via HTTP fallback" p,
               [.resolveCall, .gatewayAttempt 1, .backoffSleep 3000,
                .gatewayAttempt 2, .fallbackCall])
          | .error _ =>
              (manualResponse channel code (jsOrD (some e2) "Connection failed"),
               [.resolveCall, .gatewayAttempt 1, .backoffSleep 3000,
                .gatewayAttempt 2, .fallbackCall])

/-- The spec's `Success.method` abstraction over the handler's literal
success messages: `'Pairing approved successfully'` is the gateway path
and `'Pairing approved via HTTP fallback'` the fallback path. -/
def outcomeMethod (r : HttpResponse) : Option String :=
  if r.message = some "Pairing approved successfully" then some "gateway"
  else if r.message = some "Pairing approved via HTTP fallback" then some "fallback"
  else none

/-! ## Helper lemmas about the session machine -/

lemma closeWs_settled (s : SessionState) : (closeWs s).settled = s.settled := by
  unfold closeWs; split <;> rfl

lemma closeWs_sentApprove (s : SessionState) :
    (closeWs s).sentApprove = s.sentApprove := by
  unfold closeWs; split <;> rfl

lemma settle_settled_of_none (s : SessionState) (o : GwOutcome)
    (h : s.settled = none) : (settle s o).settled = some o := by
  simp [settle, h]

lemma settle_sentApprove (s : SessionState) (o : GwOutcome) :
    (settle s o).sentApprove = s.sentApprove := by
  unfold settle; split <;> rfl

/-- In the concrete state, the abstract phase `AwaitingConnectAck` means:
promise pending, connect sent, approve not yet sent. -/
lemma phase_connectAck_elim (s : SessionState)
    (h : phase s = .awaitingConnectAck) :
    s.settled = none ∧ s.sentApprove = false ∧ s.sentConnect = true := by
  unfold phase at h
  rcases hs : s.settled with _ | o
  · rw [hs] at h
    cases ha : s.sentApprove
    · cases hc : s.sentConnect
      · rw [ha, hc] at h; simp at h
      · exact ⟨rfl, rfl, rfl⟩
    · rw [ha] at h; simp at h
  · rw [hs] at h; cases o <;> simp at h

/-- A `res` frame with `ok` truthy, no `payload.protocol`, and an id below
2 matches none of the four handler branches and leaves the closure state
untouched. -/
lemma res_lowid_ignored (s : SessionState) (m : GwMsg)
    (ht : m.type = "res") (hok : m.ok = true)
    (hp : m.payloadProtocol = false) (hid : idGe2 m = false) :
    step s (.message (.parsed m)) = s := by
  simp [step, handleMessage, ht, hok, hp, hid]

/-- Folding the step function over a block of such ignored frames is the
identity on the state. -/
lemma foldl_res_lowid_ignored (ms : List GwMsg) :
    ∀ s : SessionState,
      (∀ m' ∈ ms, m'.type = "res" ∧ m'.ok = true ∧
        m'.payloadProtocol = false ∧ idGe2 m' = false) →
      List.foldl step s (ms.map (fun m' => GwEvent.message (.parsed m'))) = s := by
  induction ms with
  | nil => intro s _; rfl
  | cons m ms ih =>
      intro s h
      obtain ⟨h1, h2, h3, h4⟩ := h m (List.mem_cons_self m ms)
      have hrest := fun m' hm' => h m' (List.mem_cons_of_mem m hm')
      simp only [List.map_cons, List.foldl_cons,
        res_lowid_ignored s m h1 h2 h3 h4]
      exact ih s hrest

/-! ## Claims about the gateway session -/

/-- C9: a frame that fails to parse is logged and otherwise ignored: the
step on it is a total function and returns the state unchanged, so by
itself the frame neither advances nor fails the session. -/
theorem unparseable_frame_is_ignored (s : SessionState) :
    step s (.message .unparseable) = s := rfl

/-- The initial `challenge` frame from the gateway. -/
def challengeMsg : GwMsg :=
  { type := "challenge", id := none, ok := false, payloadProtocol := false,
    payload := none, errorMessage := none }

/-- The session state after the challenge was handled: the connect request
has been sent with id 1 and `messageId` is 2, so id 1 is the only
outstanding request. -/
def afterChallenge : SessionState :=
  step initialSession (.message (.parsed challengeMsg))

/-- A failure response frame carrying id 7, an id never assigned to any
request of this session. -/
def strayFailMsg : GwMsg :=
  { type := "res", id := some 7, ok := false, payloadProtocol := false,
    payload := none, errorMessage := some "stray failure" }

/-- C2 (counterexample): in the state reached after the challenge, the only
request ever sent carries id 1 (`messageId = 2`), yet the frame
`{type:'res', id:7, ok:false}` - whose id matches no outstanding request -
is NOT ignored: it changes the state and terminates the session as Failed
with the stray frame's error message.  The handler's third branch
(`msg.id >= 2`) fires on any response id at least 2, matched or not. -/
theorem unmatched_id_not_ignored_counterexample :
    afterChallenge.messageId = 2 ∧
    phase afterChallenge = .awaitingConnectAck ∧
    idGe2 strayFailMsg = true ∧
    step afterChallenge (.message (.parsed strayFailMsg)) ≠ afterChallenge ∧
    phase (step afterChallenge (.message (.parsed strayFailMsg)))
      = .terminalFailed ∧
    (step afterChallenge (.message (.parsed strayFailMsg))).settled
      = some (.rejected "stray failure") := by
  refine ⟨rfl, rfl, rfl, ?_, rfl, rfl⟩
  decide

/-- C2 (amended): the state machine does not correlate response ids with
outstanding requests.  The only inbound response frames that are ignored
in every state are those with `ok` truthy, no protocol acknowledgment in
the payload, and an id below 2; response frames with an error flag or with
id at least 2 advance or terminate the machine whether or not their id
matches an outstanding request. -/
theorem res_ok_low_unmatched_id_ignored (s : SessionState) (m : GwMsg)
    (ht : m.type = "res") (hok : m.ok = true)
    (hp : m.payloadProtocol = false) (hid : idGe2 m = false) :
    step s (.message (.parsed m)) = s :=
  res_lowid_ignored s m ht hok hp hid

/-- A concrete success response with id 1 and no protocol field. -/
def lowIdOkMsg : GwMsg :=
  { type := "res", id := some 1, ok := true, payloadProtocol := false,
    payload := none, errorMessage := none }

/-- Witness for the amended C2 at a concrete state and frame. -/
theorem res_ok_low_unmatched_id_ignored_witness :
    lowIdOkMsg.type = "res" ∧ lowIdOkMsg.ok = true ∧
    lowIdOkMsg.payloadProtocol = false ∧ idGe2 lowIdOkMsg = false ∧
    step afterChallenge (.message (.parsed lowIdOkMsg)) = afterChallenge :=
  ⟨rfl, rfl, rfl, by decide,
    res_ok_low_unmatched_id_ignored afterChallenge lowIdOkMsg rfl rfl rfl
      (by decide)⟩

/-- C10: in `AwaitingConnectAck` with the watchdog armed, a success
response whose payload lacks a `protocol` field and whose id is below the
approve-request id range matches no handler branch: the approve request is
never sent and the frame does not advance the machine; and if only such
frames arrive, the session terminates exactly when the watchdog fires,
as Failed with the gateway-timeout error, still without sending the
approve request. -/
theorem connectAck_missing_protocol_stuck (s : SessionState) (m : GwMsg)
    (ms : List GwMsg)
    (hph : phase s = .awaitingConnectAck) (hta : s.timeoutActive = true)
    (hm : m.type = "res" ∧ m.ok = true ∧ m.payloadProtocol = false ∧
      idGe2 m = false)
    (hms : ∀ m' ∈ ms, m'.type = "res" ∧ m'.ok = true ∧
      m'.payloadProtocol = false ∧ idGe2 m' = false) :
    step s (.message (.parsed m)) = s ∧
    s.sentApprove = false ∧
    List.foldl step s (ms.map (fun m' => GwEvent.message (.parsed m'))) = s ∧
    (List.foldl step s
        (ms.map (fun m' => GwEvent.message (.parsed m'))
          ++ [GwEvent.timeoutFires])).settled
      = some (.rejected "Gateway timeout - no response in 20 seconds") ∧
    (List.foldl step s
        (ms.map (fun m' => GwEvent.message (.parsed m'))
          ++ [GwEvent.timeoutFires])).sentApprove = false := by
  obtain ⟨hsettled, happrove, _⟩ := phase_connectAck_elim s hph
  obtain ⟨h1, h2, h3, h4⟩ := hm
  have hfold := foldl_res_lowid_ignored ms s hms
  have htimeout : step s .timeoutFires
      = settle (closeWs { s with timeoutActive := false })
          (.rejected "Gateway timeout - no response in 20 seconds") := by
    simp [step, hta]
  refine ⟨res_lowid_ignored s m h1 h2 h3 h4, happrove, hfold, ?_, ?_⟩
  · rw [List.foldl_append, hfold]
    simp only [List.foldl_cons, List.foldl_nil, htimeout]
    rw [settle_settled_of_none]
    rw [closeWs_settled]
    exact hsettled
  · rw [List.foldl_append, hfold]
    simp only [List.foldl_cons, List.foldl_nil, htimeout]
    rw [settle_sentApprove, closeWs_sentApprove]
    exact happrove

/-- A success response with id 1 whose payload carries no protocol field,
as the gateway bug scenario of C10. -/
def ackWithoutProtocolMsg : GwMsg :=
  { type := "res", id := some 1, ok := true, payloadProtocol := false,
    payload := some "hello", errorMessage := none }

/-- Witness for C10 at the state reached after the challenge. -/
theorem connectAck_missing_protocol_stuck_witness :
    phase afterChallenge = .awaitingConnectAck ∧
    afterChallenge.timeoutActive = true ∧
    (step afterChallenge (.message (.parsed ackWithoutProtocolMsg))
        = afterChallenge ∧
      afterChallenge.sentApprove = false ∧
      List.foldl step afterChallenge
        ([ackWithoutProtocolMsg].map (fun m' => GwEvent.message (.parsed m')))
        = afterChallenge ∧
      (List.foldl step afterChallenge
          (([ackWithoutProtocolMsg].map
              (fun m' => GwEvent.message (.parsed m')))
            ++ [GwEvent.timeoutFires])).settled
        = some (.rejected "Gateway timeout - no response in 20 seconds") ∧
      (List.foldl step afterChallenge
          (([ackWithoutProtocolMsg].map
              (fun m' => GwEvent.message (.parsed m')))
            ++ [GwEvent.timeoutFires])).sentApprove = false) :=
  ⟨rfl, rfl,
    connectAck_missing_protocol_stuck afterChallenge ackWithoutProtocolMsg
      [ackWithoutProtocolMsg] rfl rfl (by decide) (by decide)⟩

/-! ## Close-count invariant and the watchdog claim -/

lemma settle_settled_isSome (s : SessionState) (o : GwOutcome) :
    ((settle s o).settled).isSome = true := by
  unfold settle
  split
  · next h => exact h
  · simp

lemma settle_closed (s : SessionState) (o : GwOutcome) :
    (settle s o).closed = s.closed := by
  unfold settle; split <;> rfl

lemma settle_closeCount (s : SessionState) (o : GwOutcome) :
    (settle s o).closeCount = s.closeCount := by
  unfold settle; split <;> rfl

lemma closeWs_closed (s : SessionState) : (closeWs s).closed = true := by
  unfold closeWs
  split
  · next h => exact h
  · rfl

lemma closeWs_closeCount (s : SessionState) :
    (closeWs s).closeCount = if s.closed then s.closeCount else s.closeCount + 1 := by
  unfold closeWs
  split
  · next h => simp [h]
  · next h => simp at h; simp [h]

/-- Every step either leaves the promise, socket flag, and close count
untouched, or is a close-and-settle (the terminal-frame branches and the
watchdog), or a bare settle (the `error` handler, which does not close). -/
lemma step_shape (s : SessionState) (e : GwEvent) :
    ((step s e).settled = s.settled ∧ (step s e).closed = s.closed ∧
      (step s e).closeCount = s.closeCount) ∨
    (∃ o, step s e = settle (closeWs { s with timeoutActive := false }) o) ∨
    (∃ o, step s e = settle { s with timeoutActive := false } o) := by
  cases e with
  | message f =>
      cases f with
      | unparseable => exact Or.inl ⟨rfl, rfl, rfl⟩
      | parsed m =>
          simp only [step, handleMessage]
          split_ifs
          · exact Or.inl ⟨rfl, rfl, rfl⟩
          · exact Or.inl ⟨rfl, rfl, rfl⟩
          · exact Or.inr (Or.inl ⟨_, rfl⟩)
          · exact Or.inr (Or.inl ⟨_, rfl⟩)
          · exact Or.inr (Or.inl ⟨_, rfl⟩)
          · exact Or.inl ⟨rfl, rfl, rfl⟩
  | timeoutFires =>
      simp only [step]
      split_ifs
      · exact Or.inr (Or.inl ⟨_, rfl⟩)
      · exact Or.inl ⟨rfl, rfl, rfl⟩
  | wsError msg => exact Or.inr (Or.inr ⟨_, rfl⟩)
  | closeEvt => exact Or.inl ⟨rfl, rfl, rfl⟩

/-- Invariant of every reachable session state: while the promise is
pending the socket has not been closed, and the number of effective
`ws.close()` transitions is 1 when the socket is closed and 0 when not. -/
def Inv (s : SessionState) : Prop :=
  (s.settled = none → s.closed = false) ∧
  s.closeCount = (if s.closed then 1 else 0)

lemma inv_initial : Inv initialSession := by
  constructor <;> simp [initialSession]

lemma inv_settle_closeWs (s : SessionState) (o : GwOutcome) (h : Inv s) :
    Inv (settle (closeWs s) o) := by
  obtain ⟨_, h2⟩ := h
  constructor
  · intro hn
    have := settle_settled_isSome (closeWs s) o
    rw [hn] at this
    simp at this
  · rw [settle_closeCount, settle_closed, closeWs_closed, closeWs_closeCount]
    by_cases hc : s.closed
    · simp [hc, h2]
    · simp [hc, h2]

lemma inv_settle (s : SessionState) (o : GwOutcome) (h : Inv s) :
    Inv (settle s o) := by
  obtain ⟨_, h2⟩ := h
  constructor
  · intro hn
    have := settle_settled_isSome s o
    rw [hn] at this
    simp at this
  · rw [settle_closeCount, settle_closed]
    exact h2

lemma inv_step (s : SessionState) (e : GwEvent) (h : Inv s) :
    Inv (step s e) := by
  have hz : Inv { s with timeoutActive := false } := h
  rcases step_shape s e with ⟨hs, hc, hn⟩ | ⟨o, ho⟩ | ⟨o, ho⟩
  · obtain ⟨h1, h2⟩ := h
    exact ⟨fun hx => by rw [hc]; exact h1 (by rw [← hs]; exact hx),
      by rw [hn, hc]; exact h2⟩
  · rw [ho]; exact inv_settle_closeWs _ o hz
  · rw [ho]; exact inv_settle _ o hz

lemma inv_foldl (evts : List GwEvent) :
    ∀ s : SessionState, Inv s → Inv (List.foldl step s evts) := by
  induction evts with
  | nil => intro s h; exact h
  | cons e es ih => intro s h; exact ih (step s e) (inv_step s e h)

lemma inv_run (evts : List GwEvent) : Inv (runSession evts) :=
  inv_foldl evts initialSession inv_initial

/-- Once the socket is closed, every later event keeps it closed and
performs no further effective close. -/
lemma closed_step (s : SessionState) (e : GwEvent) (h : s.closed = true) :
    (step s e).closed = true ∧ (step s e).closeCount = s.closeCount := by
  rcases step_shape s e with ⟨_, hc, hn⟩ | ⟨o, ho⟩ | ⟨o, ho⟩
  · exact ⟨by rw [hc]; exact h, hn⟩
  · constructor
    · rw [ho, settle_closed, closeWs_closed]
    · rw [ho, settle_closeCount, closeWs_closeCount]
      have hcz : ({ s with timeoutActive := false } : SessionState).closed = true := h
      rw [if_pos hcz]
  · exact ⟨by rw [ho, settle_closed]; exact h,
      by rw [ho, settle_closeCount]⟩

lemma closed_foldl (evts : List GwEvent) :
    ∀ s : SessionState, s.closed = true →
      (List.foldl step s evts).closed = true ∧
      (List.foldl step s evts).closeCount = s.closeCount := by
  induction evts with
  | nil => intro s h; exact ⟨h, rfl⟩
  | cons e es ih =>
      intro s h
      obtain ⟨hc, hn⟩ := closed_step s e h
      obtain ⟨hc2, hn2⟩ := ih (step s e) hc
      refine ⟨hc2, ?_⟩
      rw [List.foldl_cons, hn2, hn]

/-- C8: whenever the watchdog elapses (fires while still armed) before the
session has reached a terminal state, the session transitions to Failed
with the gateway-timeout error and the connection undergoes exactly one
close transition, which no later event repeats. -/
theorem watchdog_fails_session_closes_once (pre post : List GwEvent)
    (hs : (runSession pre).settled = none)
    (ht : (runSession pre).timeoutActive = true) :
    (step (runSession pre) .timeoutFires).settled
      = some (.rejected "Gateway timeout - no response in 20 seconds") ∧
    (step (runSession pre) .timeoutFires).closed = true ∧
    (runSession (pre ++ GwEvent.timeoutFires :: post)).closeCount = 1 := by
  obtain ⟨h1, h2⟩ := inv_run pre
  have hcl : (runSession pre).closed = false := h1 hs
  have hcc : (runSession pre).closeCount = 0 := by rw [h2, hcl]; rfl
  have htimeout : step (runSession pre) .timeoutFires
      = settle (closeWs { runSession pre with timeoutActive := false })
          (.rejected "Gateway timeout - no response in 20 seconds") := by
    simp [step, ht]
  have hclz : ({ runSession pre with timeoutActive := false }
      : SessionState).closed = false := hcl
  have hset : (step (runSession pre) .timeoutFires).settled
      = some (.rejected "Gateway timeout - no response in 20 seconds") := by
    rw [htimeout, settle_settled_of_none]
    rw [closeWs_settled]
    exact hs
  have hclosed : (step (runSession pre) .timeoutFires).closed = true := by
    rw [htimeout, settle_closed, closeWs_closed]
  have hcount : (step (runSession pre) .timeoutFires).closeCount = 1 := by
    rw [htimeout, settle_closeCount, closeWs_closeCount, if_neg
      (by rw [hclz]; exact Bool.false_ne_true)]
    exact congrArg (· + 1) hcc
  refine ⟨hset, hclosed, ?_⟩
  have hrun : runSession (pre ++ GwEvent.timeoutFires :: post)
      = List.foldl step (step (runSession pre) .timeoutFires) post := by
    unfold runSession
    rw [List.foldl_append, List.foldl_cons]
  rw [hrun, (closed_foldl post _ hclosed).2, hcount]

/-- Witness for C8 with the empty prefix and suffix: the watchdog fires
right after open. -/
theorem watchdog_fails_session_closes_once_witness :
    (runSession []).settled = none ∧
    (runSession []).timeoutActive = true ∧
    ((step (runSession []) .timeoutFires).settled
        = some (.rejected "Gateway timeout - no response in 20 seconds") ∧
      (step (runSession []) .timeoutFires).closed = true ∧
      (runSession ([] ++ GwEvent.timeoutFires :: [])).closeCount = 1) :=
  ⟨rfl, rfl, watchdog_fails_session_closes_once [] [] rfl rfl⟩

/-! ## Claims about the fallback transport -/

/-- A 200 response whose parsed payload has no `success` key and no
`message` key: the transport-level status denotes success and the payload
does not explicitly declare failure. -/
def noDeclarationResp : FbResponse :=
  { statusCode := 200, parseOk := true, success := none, message := none,
    body := "empty-object" }

/-- C3 (counterexample): a 200 response whose payload declares neither
success nor failure is rejected by the code with the default
`'HTTP pairing failed'` message, because the handler demands
`result.success` be truthy; so "status denotes success and the payload
does not explicitly declare failure" does not imply success. -/
theorem fallback_silent_payload_rejected_counterexample :
    noDeclarationResp.statusCode = 200 ∧
    noDeclarationResp.parseOk = true ∧
    noDeclarationResp.success = none ∧
    noDeclarationResp.message = none ∧
    approvePairingViaHttp (.response noDeclarationResp)
      = .error "HTTP pairing failed" := by
  exact ⟨rfl, rfl, rfl, rfl, rfl⟩

/-- C3 (amended): for every fallback call that receives a parseable
response, the call succeeds iff the transport-level status is 200 AND the
payload explicitly declares success (`success` truthy); in every other
parseable responding case it fails carrying the worker-supplied message,
with a fixed default when the worker supplied none. -/
theorem fallback_success_requires_explicit_success (r : FbResponse)
    (hp : r.parseOk = true) :
    (approvePairingViaHttp (.response r) = .ok r.body ↔
      (r.statusCode = 200 ∧ r.success = some true)) ∧
    (¬ (r.statusCode = 200 ∧ r.success = some true) →
      approvePairingViaHttp (.response r)
        = .error (jsOrD r.message "HTTP pairing failed")) := by
  simp only [approvePairingViaHttp]
  rw [if_pos hp]
  constructor
  · constructor
    · intro h
      by_cases hc : r.statusCode = 200 ∧ r.success = some true
      · exact hc
      · rw [if_neg hc] at h
        exact absurd h (by simp)
    · intro hc
      rw [if_pos hc]
  · intro hc
    rw [if_neg hc]

/-- A parseable 200 response that explicitly declares success. -/
def explicitOkResp : FbResponse :=
  { statusCode := 200, parseOk := true, success := some true,
    message := none, body := "fb-body" }

/-- Witness for the amended C3 at a concrete parseable response. -/
theorem fallback_success_requires_explicit_success_witness :
    explicitOkResp.parseOk = true ∧
    ((approvePairingViaHttp (.response explicitOkResp)
        = .ok explicitOkResp.body ↔
      (explicitOkResp.statusCode = 200 ∧
        explicitOkResp.success = some true)) ∧
    (¬ (explicitOkResp.statusCode = 200 ∧
        explicitOkResp.success = some true) →
      approvePairingViaHttp (.response explicitOkResp)
        = .error (jsOrD explicitOkResp.message "HTTP pairing failed"))) :=
  ⟨rfl, fallback_success_requires_explicit_success explicitOkResp rfl⟩

/-! ## Claims about the orchestration -/

/-- C7's invalid-code condition on a request body: the `code` field is
absent or fails the format test. -/
def codeInvalid (req : ApproveRequest) : Bool :=
  match req.code with
  | none => true
  | some c => ¬ codeMatches c

/-- C7: a request whose code does not match `^[A-Za-z0-9_-]{2,32}$` is
rejected with a 400 validation response before resolution: the trace of
outbound work is empty, so no resolver, gateway, or fallback call is
made.  (A missing or empty code is caught by the preceding
missing-fields check, also a 400 with no outbound work.) -/
theorem invalid_code_rejected_before_resolution (req : ApproveRequest)
    (env : OrchEnv) (h : codeInvalid req = true) :
    (pairingApprove req env).1.status = 400 ∧
    (pairingApprove req env).2 = [] := by
  unfold pairingApprove
  by_cases h1 : truthy req.serviceId ∧ truthy req.channel ∧ truthy req.code
  · rcases hc : req.code with _ | c
    · rw [hc] at h1
      simp [truthy] at h1
    · rw [hc] at h1
      have hcm : ¬ codeMatches c = true := by
        unfold codeInvalid at h
        rw [hc] at h
        simpa using h
      rw [if_neg (not_not_intro h1)]
      rw [if_pos (by simpa using hcm)]
      exact ⟨rfl, rfl⟩
  · rw [if_pos h1]
    exact ⟨rfl, rfl⟩

/-- A fixed environment whose oracle results are never consulted by the
validation claims.  The gateway rejects, the directory responds with a
name, the fallback responds with a declared success. -/
def idleEnv : OrchEnv :=
  { dir := .response false (some "worker-telegram-bot"),
    gw := fun _ => .rejected "unreachable",
    fb := .response explicitOkResp }

/-- The request of spec Scenario D: `code:"a b!"`. -/
def scenarioDReq : ApproveRequest :=
  { serviceId := some "svc1", channel := some "telegram",
    code := some "a b!", gatewayToken := none }

/-- Witness for C7 at Scenario D. -/
theorem invalid_code_rejected_before_resolution_witness :
    codeInvalid scenarioDReq = true ∧
    ((pairingApprove scenarioDReq idleEnv).1.status = 400 ∧
      (pairingApprove scenarioDReq idleEnv).2 = []) :=
  ⟨by decide, invalid_code_rejected_before_resolution scenarioDReq idleEnv
    (by decide)⟩

/-- C6: when the directory response carries no usable name (or reports
errors), the run returns the 503 manual-fallback payload whose error
field is the resolver's `'Service not found'` rejection, and the trace
contains only the resolution call: no gateway attempt and no fallback
attempt is made. -/
theorem resolver_notfound_manual_no_attempts (req : ApproveRequest)
    (env : OrchEnv) (hasErr : Bool) (nm : Option String)
    (hS : truthy req.serviceId = true) (hC : truthy req.channel = true)
    (hK : truthy req.code = true)
    (hcode : codeMatches (req.code.getD "") = true)
    (hdir : env.dir = .response hasErr nm)
    (hno : hasErr = true ∨ truthy nm = false) :
    (pairingApprove req env).1
      = manualResponse (req.channel.getD "") (req.code.getD "")
          "Service not found" ∧
    (pairingApprove req env).2 = [OrchEvent.resolveCall] := by
  have hres : getServiceName env.dir = .error "Service not found" := by
    rw [hdir]
    simp only [getServiceName]
    rcases hno with h | h
    · rw [if_pos (Or.inl h)]
    · rw [if_pos (Or.inr (by simp [h]))]
  unfold pairingApprove
  rw [if_neg (not_not_intro ⟨hS, hC, hK⟩)]
  rw [if_neg (not_not_intro hcode)]
  rw [hres]
  exact ⟨rfl, rfl⟩

/-- A directory behaviour with a well-formed response carrying no name. -/
def notFoundEnv : OrchEnv :=
  { dir := .response false none,
    gw := fun _ => .rejected "unreachable",
    fb := .response explicitOkResp }

/-- The valid request of spec Scenario A. -/
def scenarioAReq : ApproveRequest :=
  { serviceId := some "svc1", channel := some "telegram",
    code := some "AB12", gatewayToken := none }

/-- Witness for C6 at a concrete unresolvable request. -/
theorem resolver_notfound_manual_no_attempts_witness :
    truthy scenarioAReq.serviceId = true ∧
    truthy scenarioAReq.channel = true ∧
    truthy scenarioAReq.code = true ∧
    codeMatches (scenarioAReq.code.getD "") = true ∧
    notFoundEnv.dir = .response false none ∧
    ((pairingApprove scenarioAReq notFoundEnv).1
        = manualResponse (scenarioAReq.channel.getD "")
            (scenarioAReq.code.getD "") "Service not found" ∧
      (pairingApprove scenarioAReq notFoundEnv).2
        = [OrchEvent.resolveCall]) :=
  ⟨rfl, rfl, rfl, by decide, rfl,
    resolver_notfound_manual_no_attempts scenarioAReq notFoundEnv false none
      rfl rfl rfl (by decide) rfl (Or.inr rfl)⟩

/-- C5: when the first gateway attempt resolves, the run returns the 200
gateway-success response carrying that attempt's payload (the spec's
`Success{method:"gateway"}`), and the trace stops at attempt 1: no
backoff sleep, no second attempt, no fallback call. -/
theorem first_attempt_done_short_circuits (req : ApproveRequest)
    (env : OrchEnv) (n p : String)
    (hS : truthy req.serviceId = true) (hC : truthy req.channel = true)
    (hK : truthy req.code = true)
    (hcode : codeMatches (req.code.getD "") = true)
    (hdir : getServiceName env.dir = .ok n)
    (hgw1 : env.gw 1 = .resolved p) :
    (pairingApprove req env).1
      = successResponse "Pairing approved successfully" p ∧
    outcomeMethod (pairingApprove req env).1 = some "gateway" ∧
    (pairingApprove req env).2
      = [OrchEvent.resolveCall, OrchEvent.gatewayAttempt 1] := by
  have hmain : pairingApprove req env
      = (successResponse "Pairing approved successfully" p,
         [OrchEvent.resolveCall, OrchEvent.gatewayAttempt 1]) := by
    unfold pairingApprove
    rw [if_neg (not_not_intro ⟨hS, hC, hK⟩)]
    rw [if_neg (not_not_intro hcode)]
    rw [hdir, hgw1]
  rw [hmain]
  exact ⟨rfl, rfl, rfl⟩

/-- An environment realising spec Scenario A: resolution succeeds and the
first gateway attempt resolves with a payload. -/
def scenarioAEnv : OrchEnv :=
  { dir := .response false (some "worker-telegram-bot"),
    gw := fun _ => .resolved "paired:true",
    fb := .response explicitOkResp }

/-- Witness for C5 at Scenario A. -/
theorem first_attempt_done_short_circuits_witness :
    truthy scenarioAReq.serviceId = true ∧
    truthy scenarioAReq.channel = true ∧
    truthy scenarioAReq.code = true ∧
    codeMatches (scenarioAReq.code.getD "") = true ∧
    getServiceName scenarioAEnv.dir = .ok "worker-telegram-bot" ∧
    scenarioAEnv.gw 1 = .resolved "paired:true" ∧
    ((pairingApprove scenarioAReq scenarioAEnv).1
        = successResponse "Pairing approved successfully" "paired:true" ∧
      outcomeMethod (pairingApprove scenarioAReq scenarioAEnv).1
        = some "gateway" ∧
      (pairingApprove scenarioAReq scenarioAEnv).2
        = [OrchEvent.resolveCall, OrchEvent.gatewayAttempt 1]) :=
  ⟨rfl, rfl, rfl, by decide, rfl, rfl,
    first_attempt_done_short_circuits scenarioAReq scenarioAEnv
      "worker-telegram-bot" "paired:true" rfl rfl rfl (by decide)
      rfl rfl⟩

/-- C4: when resolution succeeds and both gateway attempts reject, the
trace is exactly: the resolution call, gateway attempt 1, the fixed
3000 ms backoff sleep, gateway attempt 2, and one fallback call - in that
order and nothing else, whatever the fallback call then does. -/
theorem two_failed_attempts_then_one_fallback (req : ApproveRequest)
    (env : OrchEnv) (n e1 e2 : String)
    (hS : truthy req.serviceId = true) (hC : truthy req.channel = true)
    (hK : truthy req.code = true)
    (hcode : codeMatches (req.code.getD "") = true)
    (hdir : getServiceName env.dir = .ok n)
    (hgw1 : env.gw 1 = .rejected e1) (hgw2 : env.gw 2 = .rejected e2) :
    (pairingApprove req env).2
      = [OrchEvent.resolveCall, OrchEvent.gatewayAttempt 1,
         OrchEvent.backoffSleep 3000, OrchEvent.gatewayAttempt 2,
         OrchEvent.fallbackCall] := by
  unfold pairingApprove
  rw [if_neg (not_not_intro ⟨hS, hC, hK⟩)]
  rw [if_neg (not_not_intro hcode)]
  rw [hdir, hgw1, hgw2]
  rcases hfb : approvePairingViaHttp env.fb with msg | p <;> rfl

/-- A 500 fallback response whose payload carries a worker-supplied
failure message. -/
def rejectedFbResp : FbResponse :=
  { statusCode := 500, parseOk := true, success := none,
    message := some "fallback-error", body := "fb" }

/-- An environment in which resolution succeeds, both gateway attempts
reject with distinct messages, and the fallback call is rejected by the
worker with its own message. -/
def allFailEnv : OrchEnv :=
  { dir := .response false (some "worker-telegram-bot"),
    gw := fun a => .rejected (if a = 1 then "ws-error-1" else "ws-error-2"),
    fb := .response rejectedFbResp }

/-- Witness for C4 at a concrete all-failing environment. -/
theorem two_failed_attempts_then_one_fallback_witness :
    truthy scenarioAReq.serviceId = true ∧
    truthy scenarioAReq.channel = true ∧
    truthy scenarioAReq.code = true ∧
    codeMatches (scenarioAReq.code.getD "") = true ∧
    getServiceName allFailEnv.dir = .ok "worker-telegram-bot" ∧
    allFailEnv.gw 1 = .rejected "ws-error-1" ∧
    allFailEnv.gw 2 = .rejected "ws-error-2" ∧
    (pairingApprove scenarioAReq allFailEnv).2
      = [OrchEvent.resolveCall, OrchEvent.gatewayAttempt 1,
         OrchEvent.backoffSleep 3000, OrchEvent.gatewayAttempt 2,
         OrchEvent.fallbackCall] :=
  ⟨rfl, rfl, rfl, by decide, rfl, rfl, rfl,
    two_failed_attempts_then_one_fallback scenarioAReq allFailEnv
      "worker-telegram-bot" "ws-error-1" "ws-error-2" rfl rfl rfl
      (by decide) rfl rfl rfl⟩

/-- C1 (counterexample): in `allFailEnv` the last attempt actually made is
the fallback call, which fails with the worker-supplied message
`'fallback-error'`; yet the returned 503 payload carries `'ws-error-2'` -
the error of the last *gateway* attempt - as its error field (the code
logs the fallback error and surfaces `lastError`, which the attempt loop
last set; see server.js lines 296-306). -/
theorem manual_fallback_lasterror_counterexample :
    approvePairingViaHttp allFailEnv.fb = .error "fallback-error" ∧
    OrchEvent.fallbackCall ∈ (pairingApprove scenarioAReq allFailEnv).2 ∧
    (pairingApprove scenarioAReq allFailEnv).1.errorMsg
      = some "ws-error-2" ∧
    some "ws-error-2" ≠ some "fallback-error" := by
  refine ⟨rfl, ?_, rfl, by decide⟩
  rw [show (pairingApprove scenarioAReq allFailEnv).2
      = [OrchEvent.resolveCall, OrchEvent.gatewayAttempt 1,
         OrchEvent.backoffSleep 3000, OrchEvent.gatewayAttempt 2,
         OrchEvent.fallbackCall] from rfl]
  decide

/-- C1 (amended): when resolution succeeds, both gateway attempts fail
and the fallback attempt also fails, the 503 manual-fallback payload
carries the second (most recent) *gateway* attempt's error message as its
error field - with a fixed default when that message is empty - and not
the fallback attempt's error, which is only logged. -/
theorem manual_fallback_carries_last_gateway_error (req : ApproveRequest)
    (env : OrchEnv) (n e1 e2 f : String)
    (hS : truthy req.serviceId = true) (hC : truthy req.channel = true)
    (hK : truthy req.code = true)
    (hcode : codeMatches (req.code.getD "") = true)
    (hdir : getServiceName env.dir = .ok n)
    (hgw1 : env.gw 1 = .rejected e1) (hgw2 : env.gw 2 = .rejected e2)
    (hfb : approvePairingViaHttp env.fb = .error f) :
    (pairingApprove req env).1
      = manualResponse (req.channel.getD "") (req.code.getD "")
          (jsOrD (some e2) "Connection failed") := by
  unfold pairingApprove
  rw [if_neg (not_not_intro ⟨hS, hC, hK⟩)]
  rw [if_neg (not_not_intro hcode)]
  rw [hdir, hgw1, hgw2, hfb]

/-- Witness for the amended C1 at the all-failing environment. -/
theorem manual_fallback_carries_last_gateway_error_witness :
    truthy scenarioAReq.serviceId = true ∧
    truthy scenarioAReq.channel = true ∧
    truthy scenarioAReq.code = true ∧
    codeMatches (scenarioAReq.code.getD "") = true ∧
    getServiceName allFailEnv.dir = .ok "worker-telegram-bot" ∧
    allFailEnv.gw 1 = .rejected "ws-error-1" ∧
    allFailEnv.gw 2 = .rejected "ws-error-2" ∧
    approvePairingViaHttp allFailEnv.fb = .error "fallback-error" ∧
    (pairingApprove scenarioAReq allFailEnv).1
      = manualResponse (scenarioAReq.channel.getD "")
          (scenarioAReq.code.getD "")
          (jsOrD (some "ws-error-2") "Connection failed") :=
  ⟨rfl, rfl, rfl, by decide, rfl, rfl, rfl, rfl,
    manual_fallback_carries_last_gateway_error scenarioAReq allFailEnv
      "worker-telegram-bot" "ws-error-1" "ws-error-2" "fallback-error"
      rfl rfl rfl (by decide) rfl rfl rfl rfl⟩

end PairingService
